import Mathlib

/-!
Verification of the terraform-graph-to-Neo4j ingestion pipeline
(graph_parser.py, neo4j_connector.py, main.py).

The Python values produced by json.load are modelled by `PyValue`
(JSON null loads as Python None, modelled by `PyValue.none`; JSON
numbers are modelled as integers — the graphviz gvid/tail/head fields
are integers and no claim exercises fractional numbers).  Python dicts
are modelled as insertion-ordered association lists with unique keys,
the invariant json.load guarantees.
-/

/-- A Python value as produced by json.load: None, bool, int, str,
list, or dict (insertion-ordered, string-keyed). -/
inductive PyValue where
  | none
  | bool (b : Bool)
  | int (n : Int)
  | str (s : String)
  | list (xs : List PyValue)
  | dict (fields : List (String × PyValue))

/-- A Python dict with string keys, as an insertion-ordered association
list.  json.load always yields unique keys; `dictSet` below relies on
that invariant. -/
abbrev PyDict := List (String × PyValue)

/-- Python exceptions raised by the code under analysis. -/
inductive PyErr where
  | valueError (msg : String)
  | fileNotFoundError (msg : String)
  | attributeError (msg : String)
  | typeError (msg : String)
deriving DecidableEq, Repr

/-- Python truthiness (`bool(v)`): None, False, 0, "", [] and the empty
dict are falsy, everything else is truthy. -/
def pyTruthy : PyValue → Bool
  | PyValue.none => false
  | PyValue.bool b => b
  | PyValue.int n => n != 0
  | PyValue.str s => !s.isEmpty
  | PyValue.list xs => !xs.isEmpty
  | PyValue.dict fs => !fs.isEmpty

/-- Lookup of a key in a Python dict (first occurrence; keys are unique
in dicts produced by json.load). -/
def pyLookup : PyDict → String → Option PyValue
  | [], _ => Option.none
  | p :: rest, k => if p.1 == k then Option.some p.2 else pyLookup rest k

/-- Python `d.get(k)`: the stored value, or None when the key is absent. -/
def pyDictGet (d : PyDict) (k : String) : PyValue :=
  (pyLookup d k).getD PyValue.none

/-- Python `d.get(k, default)`: the stored value (even when it is None),
or `default` only when the key is absent. -/
def pyDictGetD (d : PyDict) (k : String) (default : PyValue) : PyValue :=
  (pyLookup d k).getD default

/-- Whether a Python dict has the given key. -/
def hasKey (d : PyDict) (k : String) : Bool :=
  (pyLookup d k).isSome

/-- Python `d[k] = v` on a dict with unique keys: replace the value in
place when the key exists, append the pair otherwise. -/
def dictSet : PyDict → String → PyValue → PyDict
  | [], k, v => [(k, v)]
  | p :: rest, k, v => if p.1 == k then (k, v) :: rest else p :: dictSet rest k v

mutual

/-- Python `repr`.  String escaping inside quotes is not reproduced
(no claim evaluates repr on a string containing quote characters). -/
def pyRepr : PyValue → String
  | PyValue.none => "None"
  | PyValue.bool b => if b then "True" else "False"
  | PyValue.int n => toString n
  | PyValue.str s => "'" ++ s ++ "'"
  | PyValue.list xs => "[" ++ String.intercalate ", " (pyReprList xs) ++ "]"
  | PyValue.dict fs => "\x7b" ++ String.intercalate ", " (pyReprFields fs) ++ "\x7d"

def pyReprList : List PyValue → List String
  | [] => []
  | v :: vs => pyRepr v :: pyReprList vs

def pyReprFields : List (String × PyValue) → List String
  | [] => []
  | (k, v) :: fs => ("'" ++ k ++ "': " ++ pyRepr v) :: pyReprFields fs

end

/-- Python `str(v)`: identity on strings, `repr` otherwise
(str(None) = "None", str(0) = "0", str(True) = "True"). -/
def pyToStr : PyValue → String
  | PyValue.str s => s
  | v => pyRepr v

/-- Python iteration `for x in v`: lists yield elements, strings yield
one-character strings, dicts yield their keys; None/bool/int raise
TypeError. -/
def pyIter : PyValue → Except PyErr (List PyValue)
  | PyValue.list xs => Except.ok xs
  | PyValue.str s => Except.ok (s.data.map fun c => PyValue.str (String.singleton c))
  | PyValue.dict fs => Except.ok (fs.map fun kv => PyValue.str kv.1)
  | _ => Except.error (PyErr.typeError "object is not iterable")

/-- Python `v is None`. -/
def isNoneV : PyValue → Bool
  | PyValue.none => true
  | _ => false

/-- Whether a Python value is a dict. -/
def isDictV : PyValue → Bool
  | PyValue.dict _ => true
  | _ => false

/-! ## graph_parser.py -/

/-- The parser object (graph_parser.py, `TerraformGraphParser.__init__`):
raw_data starts as None, nodes and edges as empty lists. -/
structure TerraformGraphParser where
  file_path : String
  raw_data : PyValue := PyValue.none
  nodes : List PyDict := []
  edges : List PyDict := []

/-- A fresh parser for the given path. -/
def initParser (p : String) : TerraformGraphParser := { file_path := p }

/-- What the filesystem holds at a path: no file, a file that is not
valid JSON, or a file whose JSON decodes to the given value. -/
inductive LoadResult where
  | notFound
  | badJson
  | ok (v : PyValue)

/-- The ValueError raised by parse_nodes/parse_edges/get_graph_metadata
when the loaded-data check fails (the StateError of the spec). -/
def notLoadedError : PyErr :=
  PyErr.valueError "Graph data not loaded. Call load_graph() first."

/-- The AttributeError raised when `.get` is called on a non-dict value. -/
def noGetAttrError : PyErr :=
  PyErr.attributeError "object has no attribute get"

/-- graph_parser.py `load_graph`: reads and JSON-decodes the file at
self.file_path, storing the result in raw_data; FileNotFoundError when
the file is missing, ValueError when the content is not valid JSON. -/
def load_graph (env : String → LoadResult) (st : TerraformGraphParser) :
    Except PyErr TerraformGraphParser :=
  match env st.file_path with
  | LoadResult.ok v => Except.ok { st with raw_data := v }
  | LoadResult.notFound =>
      Except.error (PyErr.fileNotFoundError ("Graph file not found: " ++ st.file_path))
  | LoadResult.badJson =>
      Except.error (PyErr.valueError "Invalid JSON in graph file")

/-- The key exclusion list of parse_nodes (graph_parser.py line 62). -/
def nodeExcludedKeys : List String := ["_gvid", "name", "label", "_draw_", "_ldraw_"]

/-- The key exclusion list of parse_edges (graph_parser.py line 92). -/
def edgeExcludedKeys : List String := ["tail", "head", "label", "_draw_", "_ldraw_", "_hdraw_"]

/-- The attribute-copying loop shared by parse_nodes and parse_edges:
for each key/value of the source object, assign it onto the record
unless the key is in the exclusion list. -/
def addExtras (excluded : List String) (src : PyDict) (d : PyDict) : PyDict :=
  src.foldl (fun nd kv => if excluded.contains kv.1 then nd else dictSet nd kv.1 kv.2) d

/-- The node record parse_nodes builds for a kept entry `gs`
(graph_parser.py lines 54-63): id = str of the gvid, name with default
"", label defaulting to name, then the extra attributes. -/
def mkNodeDict (gs : PyDict) : PyDict :=
  addExtras nodeExcludedKeys gs
    [("id", PyValue.str (pyToStr (pyDictGet gs "_gvid"))),
     ("name", pyDictGetD gs "name" (PyValue.str "")),
     ("label", pyDictGetD gs "label" (pyDictGetD gs "name" (PyValue.str "")))]

/-- One iteration of the parse_nodes loop body: skip when the entry's
_gvid `is None` (absent key or stored null), otherwise build the record;
AttributeError when the entry is not a dict (`.get` on a non-dict). -/
def processNodeObj : PyValue → Except PyErr (Option PyDict)
  | PyValue.dict gs =>
      if isNoneV (pyDictGet gs "_gvid") then Except.ok Option.none
      else Except.ok (Option.some (mkNodeDict gs))
  | _ => Except.error noGetAttrError

/-- The parse_nodes loop: append each produced record to self.nodes;
on an exception, self.nodes keeps the records appended so far. -/
def parseNodesLoop : List PyValue → TerraformGraphParser →
    Except PyErr (List PyDict) × TerraformGraphParser
  | [], st => (Except.ok st.nodes, st)
  | obj :: rest, st =>
      match processNodeObj obj with
      | Except.error e => (Except.error e, st)
      | Except.ok Option.none => parseNodesLoop rest st
      | Except.ok (Option.some nd) =>
          parseNodesLoop rest { st with nodes := st.nodes ++ [nd] }

/-- graph_parser.py `parse_nodes`: raises the not-loaded ValueError when
raw_data is falsy (the guard is `if not self.raw_data`), resets
self.nodes, iterates raw_data.get("objects", []), skipping entries whose
_gvid is None, and returns the list of produced records. -/
def parse_nodes (st : TerraformGraphParser) :
    Except PyErr (List PyDict) × TerraformGraphParser :=
  if pyTruthy st.raw_data = false then (Except.error notLoadedError, st)
  else
    let st := { st with nodes := [] }
    match st.raw_data with
    | PyValue.dict fs =>
        match pyIter (pyDictGetD fs "objects" (PyValue.list [])) with
        | Except.error e => (Except.error e, st)
        | Except.ok items => parseNodesLoop items st
    | _ => (Except.error noGetAttrError, st)

/-- The edge record parse_edges builds for an entry `gs` (graph_parser.py
lines 84-93): source/target are str of the tail/head values (str(None) =
"None" when absent), label defaults to "DEPENDS_ON", then the extras. -/
def mkEdgeDict (gs : PyDict) : PyDict :=
  addExtras edgeExcludedKeys gs
    [("source", PyValue.str (pyToStr (pyDictGet gs "tail"))),
     ("target", PyValue.str (pyToStr (pyDictGet gs "head"))),
     ("label", pyDictGetD gs "label" (PyValue.str "DEPENDS_ON"))]

/-- One iteration of the parse_edges loop body: every dict entry yields a
record (there is no skip); AttributeError when the entry is not a dict. -/
def processEdgeObj : PyValue → Except PyErr PyDict
  | PyValue.dict gs => Except.ok (mkEdgeDict gs)
  | _ => Except.error noGetAttrError

/-- The parse_edges loop, appending each record to self.edges. -/
def parseEdgesLoop : List PyValue → TerraformGraphParser →
    Except PyErr (List PyDict) × TerraformGraphParser
  | [], st => (Except.ok st.edges, st)
  | obj :: rest, st =>
      match processEdgeObj obj with
      | Except.error e => (Except.error e, st)
      | Except.ok ed => parseEdgesLoop rest { st with edges := st.edges ++ [ed] }

/-- graph_parser.py `parse_edges`: same not-loaded guard, resets
self.edges, iterates raw_data.get("edges", []) and builds one record per
entry. -/
def parse_edges (st : TerraformGraphParser) :
    Except PyErr (List PyDict) × TerraformGraphParser :=
  if pyTruthy st.raw_data = false then (Except.error notLoadedError, st)
  else
    let st := { st with edges := [] }
    match st.raw_data with
    | PyValue.dict fs =>
        match pyIter (pyDictGetD fs "edges" (PyValue.list [])) with
        | Except.error e => (Except.error e, st)
        | Except.ok items => parseEdgesLoop items st
    | _ => (Except.error noGetAttrError, st)

/-- graph_parser.py `get_graph_metadata`: same not-loaded guard; builds
the metadata dict from the top-level name/directed/strict fields with
defaults and the lengths of the stored parsed lists. -/
def get_graph_metadata (st : TerraformGraphParser) : Except PyErr PyDict :=
  if pyTruthy st.raw_data = false then Except.error notLoadedError
  else
    match st.raw_data with
    | PyValue.dict fs =>
        Except.ok
          [("name", pyDictGetD fs "name" (PyValue.str "terraform_graph")),
           ("directed", pyDictGetD fs "directed" (PyValue.bool true)),
           ("strict", pyDictGetD fs "strict" (PyValue.bool false)),
           ("node_count", PyValue.int st.nodes.length),
           ("edge_count", PyValue.int st.edges.length)]
    | _ => Except.error noGetAttrError

/-- The dict `parse` returns: its keys nodes/edges/metadata are fixed in
the source, so it is modelled as a structure. -/
structure GraphData where
  nodes : List PyDict
  edges : List PyDict
  metadata : PyDict

/-- graph_parser.py `parse`: load_graph, parse_nodes, parse_edges,
get_graph_metadata in sequence, assembling the result dict; any raised
exception propagates. -/
def parse (env : String → LoadResult) (st : TerraformGraphParser) :
    Except PyErr GraphData × TerraformGraphParser :=
  match load_graph env st with
  | Except.error e => (Except.error e, st)
  | Except.ok st1 =>
      match parse_nodes st1 with
      | (Except.error e, st2) => (Except.error e, st2)
      | (Except.ok nodes, st2) =>
          match parse_edges st2 with
          | (Except.error e, st3) => (Except.error e, st3)
          | (Except.ok edges, st3) =>
              match get_graph_metadata st3 with
              | Except.error e => (Except.error e, st3)
              | Except.ok md => (Except.ok ⟨nodes, edges, md⟩, st3)

/-! ## neo4j_connector.py

The Neo4j database reached through the driver is modelled by `Store`:
the TerraformResource nodes (each a property dict) and the DEPENDS_ON
relationships (source id property, target id property, label property).
Each connector method is modelled by its effect on the store, the value
it returns, and the trace of operations it issues, so that ordering
claims are about the trace. -/

mutual

/-- Cypher value equality as used in MATCH/MERGE property maps: a
comparison involving null matches nothing, scalars compare by value.
(All ids reaching these comparisons are strings produced by str().) -/
def pvEq : PyValue → PyValue → Bool
  | PyValue.none, _ => false
  | _, PyValue.none => false
  | PyValue.bool a, PyValue.bool b => a == b
  | PyValue.int a, PyValue.int b => a == b
  | PyValue.str a, PyValue.str b => a == b
  | PyValue.list a, PyValue.list b => pvEqList a b
  | PyValue.dict a, PyValue.dict b => pvEqFields a b
  | _, _ => false

def pvEqList : List PyValue → List PyValue → Bool
  | [], [] => true
  | a :: as', b :: bs' => pvEq a b && pvEqList as' bs'
  | _, _ => false

def pvEqFields : List (String × PyValue) → List (String × PyValue) → Bool
  | [], [] => true
  | a :: as', b :: bs' => a.1 == b.1 && pvEq a.2 b.2 && pvEqFields as' bs'
  | _, _ => false

end

/-- The state of the Neo4j database under the connector's management
scope: TerraformResource nodes (property dicts) and DEPENDS_ON
relationships keyed by the endpoint id properties, plus whether the
uniqueness constraint has been declared. -/
structure Store where
  nodes : List PyDict := []
  rels : List (PyValue × PyValue × PyValue) := []
  constraintExists : Bool := false

/-- The operations the connector issues against the store, one event
per upserted record. -/
inductive StoreEvent where
  | clearDatabase
  | createConstraints
  | nodeUpsert (nd : PyDict)
  | edgeUpsert (ed : PyDict)

/-- neo4j_connector.py `clear_database`: MATCH (n) DETACH DELETE n —
every node and relationship is removed; constraints survive. -/
def clear_database (store : Store) : Store × List StoreEvent :=
  ({ store with nodes := [], rels := [] }, [StoreEvent.clearDatabase])

/-- neo4j_connector.py `create_constraints`: CREATE CONSTRAINT ... IF
NOT EXISTS on TerraformResource.id (a failure is printed and swallowed,
so the call always returns normally). -/
def create_constraints (store : Store) : Store × List StoreEvent :=
  ({ store with constraintExists := true }, [StoreEvent.createConstraints])

/-- Cypher `SET n += m`: assign every key/value of m onto n. -/
def setProps (props : PyDict) (upd : PyDict) : PyDict :=
  upd.foldl (fun d kv => dictSet d kv.1 kv.2) props

/-- One UNWIND row of the ingest_nodes query: MERGE a TerraformResource
node on the id property, then SET n += node.  (With the uniqueness
constraint in force a MERGE match is unique; the store built by this
code never holds two nodes with the same id.) -/
def mergeNodeStep (store : Store) (nd : PyDict) : Store :=
  let idv := pyDictGet nd "id"
  if store.nodes.any (fun sn => pvEq (pyDictGet sn "id") idv) then
    { store with
        nodes := store.nodes.map fun sn =>
          if pvEq (pyDictGet sn "id") idv then setProps sn nd else sn }
  else
    { store with nodes := store.nodes ++ [setProps [("id", idv)] nd] }

/-- neo4j_connector.py `ingest_nodes`: returns 0 immediately on an empty
list (`if not nodes`), otherwise UNWINDs the list through the MERGE/SET
query and returns count(n) — one row per input record. -/
def ingest_nodes (store : Store) (nodes : List PyDict) :
    Store × Int × List StoreEvent :=
  if nodes.isEmpty then (store, 0, [])
  else
    (nodes.foldl mergeNodeStep store, (nodes.length : Int),
     nodes.map StoreEvent.nodeUpsert)

/-- One UNWIND row of the ingest_edges query: MATCH both endpoint nodes
by id; when both exist, MERGE the DEPENDS_ON relationship between them
and SET its label; when either MATCH fails the row yields nothing and
the relationship is silently not created. -/
def mergeEdgeStep (acc : Store × Int) (ed : PyDict) : Store × Int :=
  let s := pyDictGet ed "source"
  let t := pyDictGet ed "target"
  let l := pyDictGet ed "label"
  let store := acc.1
  if store.nodes.any (fun sn => pvEq (pyDictGet sn "id") s) &&
     store.nodes.any (fun sn => pvEq (pyDictGet sn "id") t) then
    let store' :=
      if store.rels.any (fun r => pvEq r.1 s && pvEq r.2.1 t) then
        { store with
            rels := store.rels.map fun r =>
              if pvEq r.1 s && pvEq r.2.1 t then (r.1, r.2.1, l) else r }
      else { store with rels := store.rels ++ [(s, t, l)] }
    (store', acc.2 + 1)
  else (store, acc.2)

/-- neo4j_connector.py `ingest_edges`: returns 0 immediately on an empty
list, otherwise UNWINDs the list through the MATCH/MATCH/MERGE/SET query
and returns count(r) — one row per edge whose two endpoints matched. -/
def ingest_edges (store : Store) (edges : List PyDict) :
    Store × Int × List StoreEvent :=
  if edges.isEmpty then (store, 0, [])
  else
    let res := edges.foldl mergeEdgeStep (store, 0)
    (res.1, res.2, edges.map StoreEvent.edgeUpsert)

/-- neo4j_connector.py `ingest_graph`: optional clear_database, then
create_constraints, then ingest_nodes, then ingest_edges; returns the
dict of the two counts.  The result is (final store, returned dict,
trace of issued operations in order). -/
def ingest_graph (store : Store) (g : GraphData) (clear_existing : Bool) :
    Store × PyDict × List StoreEvent :=
  let r1 := if clear_existing then clear_database store else (store, [])
  let r2 := create_constraints r1.1
  let r3 := ingest_nodes r2.1 g.nodes
  let r4 := ingest_edges r3.1 g.edges
  (r4.1,
   [("nodes", PyValue.int r3.2.1), ("edges", PyValue.int r4.2.1)],
   r1.2 ++ r2.2 ++ r3.2.2 ++ r4.2.2)

/-- neo4j_connector.py `get_stats`, modelling the Cypher query
  MATCH (n:TerraformResource)
  OPTIONAL MATCH ()-[r:DEPENDS_ON]->()
  RETURN count(DISTINCT n) AS nodes, count(r) AS relationships
row by row: MATCH produces one row per TerraformResource node; OPTIONAL
MATCH is evaluated once per incoming row and produces one row per
DEPENDS_ON relationship in the whole graph (its endpoints are
unconstrained), or a single row with r = null when there are none.
Hence count(DISTINCT n) is the node count N, while count(r) counts the
non-null r occurrences over all N*R rows, i.e. N*R (0 when N = 0, since
then MATCH yields no rows at all). -/
def get_stats (store : Store) : PyDict :=
  let n := store.nodes.length
  let r := store.rels.length
  [("nodes", PyValue.int (n : Int)),
   ("relationships", PyValue.int (if n = 0 then 0 else ((n * r : Nat) : Int)))]

/-- Whether a store event is an edge upsert. -/
def isEdgeEvt : StoreEvent → Bool
  | StoreEvent.edgeUpsert _ => true
  | _ => false

/-- Whether a store event is a node upsert. -/
def isNodeEvt : StoreEvent → Bool
  | StoreEvent.nodeUpsert _ => true
  | _ => false

/-- No node upsert occurs at or after the first edge upsert of the
trace: every edge upsert begins only after all node upserts completed. -/
def edgesAfterNodes (tr : List StoreEvent) : Bool :=
  (tr.dropWhile fun e => !isEdgeEvt e).all fun e => !isNodeEvt e

/-! ## main.py -/

/-- The three environment settings main reads (os.getenv returns None
when a variable is unset). -/
structure EnvVars where
  uriVar : Option String := Option.none
  userVar : Option String := Option.none
  passwordVar : Option String := Option.none

/-- The command-line arguments of main.py with their argparse defaults. -/
structure CliArgs where
  graph_file : String := "graph.json"
  skip_generate : Bool := false
  no_clear : Bool := false

/-- The externally observable actions of one run of main. -/
inductive RunEvent where
  | configError
  | generateAttempt
  | fileMissingError
  | parseAttempt
  | connectAttempt
  | storeOp (e : StoreEvent)
  | statsQuery
  | closeConn
  | fatalError

/-- main.py `main`, from the configuration read-out on: the password
check (`if not neo4j_password` — None or empty string), the optional
graph generation (outcome given by the genOk oracle), the file-existence
check, parse, and the connector block (connect outcome given by the
connectOk oracle; on success ingest_graph then get_stats then close).
Returns the process exit code, the trace of performed actions, and the
final store state. -/
def mainRun (envv : EnvVars) (args : CliArgs) (genOk : Bool)
    (fileEnv : String → LoadResult) (connectOk : Bool) (store : Store) :
    Nat × List RunEvent × Store :=
  let pw := envv.passwordVar.getD ""
  if pw == "" then (1, [RunEvent.configError], store)
  else
    let genEvents := if args.skip_generate then [] else [RunEvent.generateAttempt]
    if !args.skip_generate && !genOk then (1, genEvents, store)
    else
      match fileEnv args.graph_file with
      | LoadResult.notFound => (1, genEvents ++ [RunEvent.fileMissingError], store)
      | _ =>
        match (parse fileEnv (initParser args.graph_file)).1 with
        | Except.error _ =>
            (1, genEvents ++ [RunEvent.parseAttempt, RunEvent.fatalError], store)
        | Except.ok g =>
            if !connectOk then
              (1, genEvents ++
                    [RunEvent.parseAttempt, RunEvent.connectAttempt,
                     RunEvent.fatalError], store)
            else
              let r := ingest_graph store g (!args.no_clear)
              (0, genEvents ++
                    [RunEvent.parseAttempt, RunEvent.connectAttempt] ++
                    r.2.2.map RunEvent.storeOp ++
                    [RunEvent.statsQuery, RunEvent.closeConn],
               r.1)

/-! ## Derived record constructors used in theorem statements -/

/-- The per-entry action of parse_nodes on a well-formed entry: skip
when the gvid lookup is None, otherwise the node record. -/
def nodeRecOf? : PyValue → Option PyDict
  | PyValue.dict gs =>
      if isNoneV (pyDictGet gs "_gvid") then Option.none
      else Option.some (mkNodeDict gs)
  | _ => Option.none

/-- The records parse_nodes produces for a list of entries, in document
order. -/
def nodeRecs (entries : List PyValue) : List PyDict :=
  entries.filterMap nodeRecOf?

/-- The per-entry action of parse_edges on a well-formed entry (every
dict entry yields a record). -/
def edgeRecOf? : PyValue → Option PyDict
  | PyValue.dict gs => Option.some (mkEdgeDict gs)
  | _ => Option.none

/-- The records parse_edges produces for a list of entries, in document
order. -/
def edgeRecs (entries : List PyValue) : List PyDict :=
  entries.filterMap edgeRecOf?

/-- Whether an object entry carries the internal graph-identifier field
(a stored JSON null counts as absent, exactly as Python's
`obj.get("_gvid") is None` does). -/
def keepsEntry : PyValue → Bool
  | PyValue.dict gs => !isNoneV (pyDictGet gs "_gvid")
  | _ => false

/-! ## Dictionary lemmas -/

theorem addExtras_nil (excluded : List String) (d : PyDict) :
    addExtras excluded [] d = d := rfl

theorem addExtras_cons (excluded : List String) (kv : String × PyValue)
    (rest : PyDict) (d : PyDict) :
    addExtras excluded (kv :: rest) d =
      addExtras excluded rest
        (if excluded.contains kv.1 then d else dictSet d kv.1 kv.2) := rfl

theorem pyLookup_dictSet_ne (d : PyDict) (k' : String) (v : PyValue) (k : String)
    (h : (k' == k) = false) : pyLookup (dictSet d k' v) k = pyLookup d k := by
  induction d with
  | nil => simp [dictSet, pyLookup, h]
  | cons p rest ih =>
      cases hp : (p.1 == k') with
      | true =>
          have hpk : p.1 = k' := eq_of_beq hp
          have hk : (p.1 == k) = false := by rw [hpk]; exact h
          simp [dictSet, hp, pyLookup, h, hk]
      | false =>
          cases hk : (p.1 == k) with
          | true => simp [dictSet, hp, pyLookup, hk]
          | false => simp [dictSet, hp, pyLookup, hk, ih]

theorem pyLookup_eq_none_of_not_hasKey (d : PyDict) (k : String)
    (h : hasKey d k = false) : pyLookup d k = Option.none := by
  cases hl : pyLookup d k with
  | none => rfl
  | some v => simp [hasKey, hl] at h

theorem pyLookup_none_forall (d : PyDict) (k : String)
    (h : pyLookup d k = Option.none) : ∀ p ∈ d, (p.1 == k) = false := by
  induction d with
  | nil => intro p hp; cases hp
  | cons q rest ih =>
      intro p hp
      rw [List.mem_cons] at hp
      cases hq : (q.1 == k) with
      | true => simp [pyLookup, hq] at h
      | false =>
          rcases hp with hp | hp
          · rw [hp]; exact hq
          · have h' : pyLookup rest k = Option.none := by
              simpa [pyLookup, hq] using h
            exact ih h' p hp

theorem addExtras_lookup_skip (excluded : List String) (src : PyDict) (d : PyDict)
    (k : String)
    (h : ∀ p ∈ src, excluded.contains p.1 = true ∨ (p.1 == k) = false) :
    pyLookup (addExtras excluded src d) k = pyLookup d k := by
  induction src generalizing d with
  | nil => rw [addExtras_nil]
  | cons kv rest ih =>
      have hkv := h kv (by simp)
      have hrest : ∀ p ∈ rest, excluded.contains p.1 = true ∨ (p.1 == k) = false :=
        fun p hp => h p (List.mem_cons_of_mem _ hp)
      rw [addExtras_cons]
      cases hc : excluded.contains kv.1 with
      | true => simp only [hc, if_true]; exact ih d hrest
      | false =>
          have hne : (kv.1 == k) = false := by
            rcases hkv with hkv | hkv
            · rw [hc] at hkv; cases hkv
            · exact hkv
          simp only [hc, if_false, Bool.false_eq_true]
          rw [ih (dictSet d kv.1 kv.2) hrest]
          exact pyLookup_dictSet_ne d kv.1 kv.2 k hne

theorem addExtras_lookup_of_mem_excluded (excluded : List String) (src : PyDict)
    (d : PyDict) (k : String) (h : excluded.contains k = true) :
    pyLookup (addExtras excluded src d) k = pyLookup d k := by
  apply addExtras_lookup_skip
  intro p _
  cases hp : (p.1 == k) with
  | true => exact Or.inl (by rw [eq_of_beq hp]; exact h)
  | false => exact Or.inr rfl

theorem addExtras_lookup_of_not_hasKey (excluded : List String) (src : PyDict)
    (d : PyDict) (k : String) (h : hasKey src k = false) :
    pyLookup (addExtras excluded src d) k = pyLookup d k := by
  apply addExtras_lookup_skip
  intro p hp
  exact Or.inr (pyLookup_none_forall src k (pyLookup_eq_none_of_not_hasKey src k h) p hp)

theorem pyDictGetD_of_not_hasKey (d : PyDict) (k : String) (v : PyValue)
    (h : hasKey d k = false) : pyDictGetD d k v = v := by
  rw [pyDictGetD, pyLookup_eq_none_of_not_hasKey d k h]
  rfl

theorem hasKey_dictSet_self (d : PyDict) (k : String) (v : PyValue) :
    hasKey (dictSet d k v) k = true := by
  induction d with
  | nil => simp [dictSet, hasKey, pyLookup]
  | cons p rest ih =>
      cases hp : (p.1 == k) with
      | true => simp [dictSet, hp, hasKey, pyLookup]
      | false => simpa [dictSet, hp, hasKey, pyLookup] using ih

theorem hasKey_dictSet_mono (d : PyDict) (k k' : String) (v : PyValue)
    (h : hasKey d k = true) : hasKey (dictSet d k' v) k = true := by
  cases hkk : (k' == k) with
  | true =>
      have hk : k' = k := eq_of_beq hkk
      subst hk
      exact hasKey_dictSet_self d k' v
  | false =>
      simp only [hasKey] at h ⊢
      rw [pyLookup_dictSet_ne d k' v k hkk]
      exact h

theorem hasKey_addExtras_mono (excluded : List String) (src : PyDict)
    (k : String) :
    ∀ d : PyDict, hasKey d k = true → hasKey (addExtras excluded src d) k = true := by
  induction src with
  | nil => intro d h; exact h
  | cons kv rest ih =>
      intro d h
      rw [addExtras_cons]
      cases hc : excluded.contains kv.1 with
      | true => simp only [hc, if_true]; exact ih d h
      | false =>
          simp only [hc, Bool.false_eq_true, if_false]
          exact ih _ (hasKey_dictSet_mono d k kv.1 kv.2 h)

theorem hasKey_addExtras_of_not_excluded (excluded : List String) (src : PyDict)
    (k : String) (hne : excluded.contains k = false) :
    ∀ d : PyDict, hasKey src k = true → hasKey (addExtras excluded src d) k = true := by
  induction src with
  | nil => intro d h; simp [hasKey, pyLookup] at h
  | cons kv rest ih =>
      intro d h
      rw [addExtras_cons]
      cases hk : (kv.1 == k) with
      | true =>
          have hkv : kv.1 = k := eq_of_beq hk
          have hc : excluded.contains kv.1 = false := by rw [hkv]; exact hne
          simp only [hc, Bool.false_eq_true, if_false]
          apply hasKey_addExtras_mono
          rw [hkv]
          exact hasKey_dictSet_self d k kv.2
      | false =>
          have hrest : hasKey rest k = true := by
            simpa [hasKey, pyLookup, hk] using h
          cases hc : excluded.contains kv.1 with
          | true => simp only [hc, if_true]; exact ih _ hrest
          | false =>
              simp only [hc, Bool.false_eq_true, if_false]
              exact ih _ hrest

/-! ## Parser lemmas -/

theorem parseNodesLoop_eq (entries : List PyValue) (st : TerraformGraphParser)
    (h : entries.all isDictV = true) :
    parseNodesLoop entries st =
      (Except.ok (st.nodes ++ nodeRecs entries),
       { st with nodes := st.nodes ++ nodeRecs entries }) := by
  induction entries generalizing st with
  | nil => simp [parseNodesLoop, nodeRecs]
  | cons e rest ih =>
      rw [List.all_cons, Bool.and_eq_true] at h
      cases e with
      | dict gs =>
          cases hg : isNoneV (pyDictGet gs "_gvid") with
          | true =>
              have : nodeRecs (PyValue.dict gs :: rest) = nodeRecs rest := by
                simp [nodeRecs, nodeRecOf?, hg]
              rw [this]
              simpa [parseNodesLoop, processNodeObj, hg] using ih st h.2
          | false =>
              have hstep : nodeRecs (PyValue.dict gs :: rest) =
                  mkNodeDict gs :: nodeRecs rest := by
                simp [nodeRecs, nodeRecOf?, hg]
              rw [hstep]
              have := ih { st with nodes := st.nodes ++ [mkNodeDict gs] } h.2
              simpa [parseNodesLoop, processNodeObj, hg] using this
      | none => simp [isDictV] at h
      | bool b => simp [isDictV] at h
      | int n => simp [isDictV] at h
      | str s => simp [isDictV] at h
      | list xs => simp [isDictV] at h

theorem parseEdgesLoop_eq (entries : List PyValue) (st : TerraformGraphParser)
    (h : entries.all isDictV = true) :
    parseEdgesLoop entries st =
      (Except.ok (st.edges ++ edgeRecs entries),
       { st with edges := st.edges ++ edgeRecs entries }) := by
  induction entries generalizing st with
  | nil => simp [parseEdgesLoop, edgeRecs]
  | cons e rest ih =>
      rw [List.all_cons, Bool.and_eq_true] at h
      cases e with
      | dict gs =>
          have hstep : edgeRecs (PyValue.dict gs :: rest) =
              mkEdgeDict gs :: edgeRecs rest := by
            simp [edgeRecs, edgeRecOf?]
          rw [hstep]
          have := ih { st with edges := st.edges ++ [mkEdgeDict gs] } h.2
          simpa [parseEdgesLoop, processEdgeObj] using this
      | none => simp [isDictV] at h
      | bool b => simp [isDictV] at h
      | int n => simp [isDictV] at h
      | str s => simp [isDictV] at h
      | list xs => simp [isDictV] at h

theorem parse_nodes_eq (st : TerraformGraphParser) (fs : PyDict)
    (entries : List PyValue)
    (h1 : st.raw_data = PyValue.dict fs) (h2 : fs.isEmpty = false)
    (h3 : pyDictGetD fs "objects" (PyValue.list []) = PyValue.list entries)
    (h4 : entries.all isDictV = true) :
    parse_nodes st =
      (Except.ok (nodeRecs entries), { st with nodes := nodeRecs entries }) := by
  have := parseNodesLoop_eq entries { st with nodes := [] } h4
  simp [parse_nodes, h1, pyTruthy, h2, h3, pyIter] at this ⊢
  exact this

theorem parse_edges_eq (st : TerraformGraphParser) (fs : PyDict)
    (entries : List PyValue)
    (h1 : st.raw_data = PyValue.dict fs) (h2 : fs.isEmpty = false)
    (h3 : pyDictGetD fs "edges" (PyValue.list []) = PyValue.list entries)
    (h4 : entries.all isDictV = true) :
    parse_edges st =
      (Except.ok (edgeRecs entries), { st with edges := edgeRecs entries }) := by
  have := parseEdgesLoop_eq entries { st with edges := [] } h4
  simp [parse_edges, h1, pyTruthy, h2, h3, pyIter] at this ⊢
  exact this

theorem length_nodeRecs (entries : List PyValue) (h : entries.all isDictV = true) :
    (nodeRecs entries).length = (entries.filter keepsEntry).length := by
  induction entries with
  | nil => rfl
  | cons e rest ih =>
      rw [List.all_cons, Bool.and_eq_true] at h
      cases e with
      | dict gs =>
          cases hg : isNoneV (pyDictGet gs "_gvid") with
          | true => simp [nodeRecs, nodeRecOf?, keepsEntry, hg, ih h.2, nodeRecs] at ih h ⊢
                    exact ih h.2
          | false => simp [nodeRecs, nodeRecOf?, keepsEntry, hg]
                     exact ih h.2
      | none => simp [isDictV] at h
      | bool b => simp [isDictV] at h
      | int n => simp [isDictV] at h
      | str s => simp [isDictV] at h
      | list xs => simp [isDictV] at h

theorem length_edgeRecs (entries : List PyValue) (h : entries.all isDictV = true) :
    (edgeRecs entries).length = entries.length := by
  induction entries with
  | nil => rfl
  | cons e rest ih =>
      rw [List.all_cons, Bool.and_eq_true] at h
      cases e with
      | dict gs =>
          have hstep : edgeRecs (PyValue.dict gs :: rest) =
              mkEdgeDict gs :: edgeRecs rest := by
            simp [edgeRecs, edgeRecOf?]
          rw [hstep, List.length_cons, List.length_cons, ih h.2]
      | none => simp [isDictV] at h
      | bool b => simp [isDictV] at h
      | int n => simp [isDictV] at h
      | str s => simp [isDictV] at h
      | list xs => simp [isDictV] at h

/-! ## Connector trace lemmas -/

theorem ingest_nodes_events (store : Store) (nodes : List PyDict) :
    (ingest_nodes store nodes).2.2 = nodes.map StoreEvent.nodeUpsert := by
  cases nodes with
  | nil => rfl
  | cons nd rest => rfl

theorem ingest_edges_events (store : Store) (edges : List PyDict) :
    (ingest_edges store edges).2.2 = edges.map StoreEvent.edgeUpsert := by
  cases edges with
  | nil => rfl
  | cons ed rest => rfl

theorem dropWhile_append_of_all {α : Type} (p : α → Bool) (l1 l2 : List α)
    (h : l1.all p = true) : (l1 ++ l2).dropWhile p = l2.dropWhile p := by
  induction l1 with
  | nil => rfl
  | cons a rest ih =>
      rw [List.all_cons, Bool.and_eq_true] at h
      simp [List.dropWhile, h.1, ih h.2]

theorem all_dropWhile {α : Type} (p q : α → Bool) (l : List α)
    (h : l.all q = true) : (l.dropWhile p).all q = true := by
  induction l with
  | nil => rfl
  | cons a rest ih =>
      rw [List.all_cons, Bool.and_eq_true] at h
      cases hp : p a with
      | true => simp [List.dropWhile, hp, ih h.2]
      | false => simp [List.dropWhile, hp, List.all_cons, h.1, h.2]

theorem edgesAfterNodes_shape (ce : Bool) (ns es : List PyDict) :
    edgesAfterNodes
      ((if ce then [StoreEvent.clearDatabase] else []) ++
        StoreEvent.createConstraints ::
          (ns.map StoreEvent.nodeUpsert ++ es.map StoreEvent.edgeUpsert)) = true := by
  rw [edgesAfterNodes]
  have hassoc :
      (if ce then [StoreEvent.clearDatabase] else []) ++
        StoreEvent.createConstraints ::
          (ns.map StoreEvent.nodeUpsert ++ es.map StoreEvent.edgeUpsert) =
      ((if ce then [StoreEvent.clearDatabase] else []) ++
        StoreEvent.createConstraints :: ns.map StoreEvent.nodeUpsert) ++
          es.map StoreEvent.edgeUpsert := by
    simp
  rw [hassoc]
  rw [dropWhile_append_of_all]
  · apply all_dropWhile
    simp [List.all_map, isNodeEvt, Function.comp]
  · cases ce <;> simp [List.all_map, isEdgeEvt, Function.comp]

/-! ## Record normalization lemmas -/

theorem mkNodeDict_normalized (gs : PyDict) :
    hasKey (mkNodeDict gs) "_gvid" = false ∧
    hasKey (mkNodeDict gs) "_draw_" = false ∧
    hasKey (mkNodeDict gs) "_ldraw_" = false ∧
    pyLookup (mkNodeDict gs) "name" =
      Option.some (pyDictGetD gs "name" (PyValue.str "")) ∧
    pyLookup (mkNodeDict gs) "label" =
      Option.some (pyDictGetD gs "label" (pyDictGetD gs "name" (PyValue.str ""))) := by
  refine ⟨?_, ?_, ?_, ?_, ?_⟩ <;>
  · simp only [hasKey, mkNodeDict]
    rw [addExtras_lookup_of_mem_excluded _ _ _ _ (by decide)]
    rfl

theorem mkEdgeDict_normalized (gs : PyDict) :
    hasKey (mkEdgeDict gs) "tail" = false ∧
    hasKey (mkEdgeDict gs) "head" = false ∧
    hasKey (mkEdgeDict gs) "_draw_" = false ∧
    hasKey (mkEdgeDict gs) "_ldraw_" = false ∧
    hasKey (mkEdgeDict gs) "_hdraw_" = false ∧
    pyLookup (mkEdgeDict gs) "label" =
      Option.some (pyDictGetD gs "label" (PyValue.str "DEPENDS_ON")) := by
  refine ⟨?_, ?_, ?_, ?_, ?_, ?_⟩ <;>
  · simp only [hasKey, mkEdgeDict]
    rw [addExtras_lookup_of_mem_excluded _ _ _ _ (by decide)]
    rfl

/-! ## Claim theorems -/

/-- C1 (amended): for every loaded well-formed document and every node
or edge entry in it, the record parse_nodes/parse_edges produces carries
none of the keys the code actually excludes: a node record never has a
_gvid, _draw_ or _ldraw_ key and its name/label entries are exactly the
normalized values (never overwritten by the attribute-copying loop); an
edge record never has a tail, head, _draw_, _ldraw_ or _hdraw_ key and
its label entry is exactly the normalized value.  The tail-draw key
_tdraw_ is NOT in the edge exclusion list (graph_parser.py line 92
excludes the label-draw key _ldraw_ instead), so an edge entry carrying
a _tdraw_ field (entry et) keeps that key in the produced record. -/
theorem spec_c1_excluded_keys (st : TerraformGraphParser) (fs : PyDict)
    (nentries eentries : List PyValue) (gs es et : PyDict)
    (h1 : st.raw_data = PyValue.dict fs) (h2 : fs.isEmpty = false)
    (h3 : pyDictGetD fs "objects" (PyValue.list []) = PyValue.list nentries)
    (h4 : nentries.all isDictV = true)
    (h5 : pyDictGetD fs "edges" (PyValue.list []) = PyValue.list eentries)
    (h6 : eentries.all isDictV = true)
    (hgs : PyValue.dict gs ∈ nentries) (hes : PyValue.dict es ∈ eentries)
    (het : PyValue.dict et ∈ eentries)
    (htd : hasKey et "_tdraw_" = true) :
    (parse_nodes st).1 = Except.ok (nodeRecs nentries) ∧
    (parse_edges st).1 = Except.ok (edgeRecs eentries) ∧
    hasKey (mkNodeDict gs) "_gvid" = false ∧
    hasKey (mkNodeDict gs) "_draw_" = false ∧
    hasKey (mkNodeDict gs) "_ldraw_" = false ∧
    pyLookup (mkNodeDict gs) "name" =
      Option.some (pyDictGetD gs "name" (PyValue.str "")) ∧
    pyLookup (mkNodeDict gs) "label" =
      Option.some (pyDictGetD gs "label" (pyDictGetD gs "name" (PyValue.str ""))) ∧
    hasKey (mkEdgeDict es) "tail" = false ∧
    hasKey (mkEdgeDict es) "head" = false ∧
    hasKey (mkEdgeDict es) "_draw_" = false ∧
    hasKey (mkEdgeDict es) "_ldraw_" = false ∧
    hasKey (mkEdgeDict es) "_hdraw_" = false ∧
    pyLookup (mkEdgeDict es) "label" =
      Option.some (pyDictGetD es "label" (PyValue.str "DEPENDS_ON")) ∧
    hasKey (mkEdgeDict et) "_tdraw_" = true := by
  have hn := mkNodeDict_normalized gs
  have he := mkEdgeDict_normalized es
  refine ⟨?_, ?_, hn.1, hn.2.1, hn.2.2.1, hn.2.2.2.1, hn.2.2.2.2,
          he.1, he.2.1, he.2.2.1, he.2.2.2.1, he.2.2.2.2.1, he.2.2.2.2.2, ?_⟩
  · rw [parse_nodes_eq st fs nentries h1 h2 h3 h4]
  · rw [parse_edges_eq st fs eentries h1 h2 h5 h6]
  · rw [mkEdgeDict]
    exact hasKey_addExtras_of_not_excluded edgeExcludedKeys et "_tdraw_"
      (by decide) _ htd

/-- Concrete document for the C1 witness: one node entry with a drawing
attribute and one extra attribute, one edge entry likewise. -/
def c1gs : PyDict :=
  [("_gvid", PyValue.int 0), ("_draw_", PyValue.list []), ("shape", PyValue.str "box")]

def c1es : PyDict :=
  [("tail", PyValue.int 0), ("head", PyValue.int 1), ("_hdraw_", PyValue.list []),
   ("style", PyValue.str "dashed")]

/-- Concrete edge entry carrying a tail-draw attribute, for the C1
counterexample and witness. -/
def c1et : PyDict :=
  [("tail", PyValue.int 1), ("head", PyValue.int 0), ("_tdraw_", PyValue.list [])]

def c1fs : PyDict :=
  [("objects", PyValue.list [PyValue.dict c1gs]),
   ("edges", PyValue.list [PyValue.dict c1es, PyValue.dict c1et])]

def c1st : TerraformGraphParser := { file_path := "g", raw_data := PyValue.dict c1fs }

/-- The loaded parser state whose document holds only the _tdraw_ edge
entry, for the C1 counterexample. -/
def c1ceSt : TerraformGraphParser :=
  { file_path := "g",
    raw_data := PyValue.dict [("edges", PyValue.list [PyValue.dict c1et])] }

/-- C1 counterexample: the edge exclusion list at graph_parser.py line
92 contains the label-draw key _ldraw_ but not the tail-draw key
_tdraw_, so parse_edges copies a _tdraw_ field into the produced record:
on the document whose single edge entry carries _tdraw_, the record
retains that key, refuting the claim that the tail-draw-attribute key
never appears in an edge record's extra attributes. -/
theorem spec_c1_counterexample :
    (parse_edges c1ceSt).1 =
      Except.ok [[("source", PyValue.str "1"), ("target", PyValue.str "0"),
                  ("label", PyValue.str "DEPENDS_ON"), ("_tdraw_", PyValue.list [])]] ∧
    hasKey (mkEdgeDict c1et) "_tdraw_" = true ∧
    hasKey (mkEdgeDict c1et) "_tdraw_" ≠ false :=
  ⟨rfl, rfl, fun h => nomatch h⟩

/-- C1 witness: the amended theorem applied to the concrete document
above, with the produced records evaluated (the second edge record
retains the copied _tdraw_ attribute). -/
theorem spec_c1_excluded_keys_witness :
    (parse_nodes c1st).1 =
      Except.ok [[("id", PyValue.str "0"), ("name", PyValue.str ""),
                  ("label", PyValue.str ""), ("shape", PyValue.str "box")]] ∧
    (parse_edges c1st).1 =
      Except.ok [[("source", PyValue.str "0"), ("target", PyValue.str "1"),
                  ("label", PyValue.str "DEPENDS_ON"), ("style", PyValue.str "dashed")],
                 [("source", PyValue.str "1"), ("target", PyValue.str "0"),
                  ("label", PyValue.str "DEPENDS_ON"), ("_tdraw_", PyValue.list [])]] ∧
    hasKey (mkNodeDict c1gs) "_gvid" = false ∧
    hasKey (mkNodeDict c1gs) "_draw_" = false ∧
    hasKey (mkNodeDict c1gs) "_ldraw_" = false ∧
    pyLookup (mkNodeDict c1gs) "name" = Option.some (PyValue.str "") ∧
    pyLookup (mkNodeDict c1gs) "label" = Option.some (PyValue.str "") ∧
    hasKey (mkEdgeDict c1es) "tail" = false ∧
    hasKey (mkEdgeDict c1es) "head" = false ∧
    hasKey (mkEdgeDict c1es) "_draw_" = false ∧
    hasKey (mkEdgeDict c1es) "_ldraw_" = false ∧
    hasKey (mkEdgeDict c1es) "_hdraw_" = false ∧
    pyLookup (mkEdgeDict c1es) "label" = Option.some (PyValue.str "DEPENDS_ON") ∧
    hasKey (mkEdgeDict c1et) "_tdraw_" = true :=
  spec_c1_excluded_keys c1st c1fs [PyValue.dict c1gs]
    [PyValue.dict c1es, PyValue.dict c1et] c1gs c1es c1et
    rfl rfl rfl rfl rfl rfl (by simp) (by simp) (by simp) rfl

/-- Concrete filesystem whose graph file contains the empty JSON object
(a successfully loadable document that is falsy in Python). -/
def emptyObjEnv : String → LoadResult := fun _ => LoadResult.ok (PyValue.dict [])

/-- The parser state right after successfully loading the empty JSON
object. -/
def stEmptyObj : TerraformGraphParser :=
  { file_path := "graph.json", raw_data := PyValue.dict [] }

/-- C2: evaluation at the failing input.  The guard of
parse_nodes/parse_edges/get_graph_metadata is `if not self.raw_data`,
which tests Python truthiness rather than whether a load happened: after
a successful load of the empty JSON object the parser still raises the
not-loaded ValueError (first four conjuncts), even though the load
succeeded; on a parser that has never loaded it raises it as the claim
says (last conjunct). -/
theorem spec_c2_guard_bug :
    load_graph emptyObjEnv (initParser "graph.json") = Except.ok stEmptyObj ∧
    (parse_nodes stEmptyObj).1 = Except.error notLoadedError ∧
    (parse_edges stEmptyObj).1 = Except.error notLoadedError ∧
    get_graph_metadata stEmptyObj = Except.error notLoadedError ∧
    (parse_nodes (initParser "graph.json")).1 = Except.error notLoadedError :=
  ⟨rfl, rfl, rfl, rfl, rfl⟩

/-- C3 (amended): for every loaded document that is a non-empty JSON
object whose objects collection (when present) is an array of JSON
objects, parse_nodes skips exactly the entries whose internal identifier
field is absent (a stored null counts as absent, as in Python
`obj.get("_gvid") is None`), and produces exactly one record per
remaining entry in document order; an absent objects collection behaves
as an empty one. -/
theorem spec_c3_skip_count (st : TerraformGraphParser) (fs : PyDict)
    (entries : List PyValue)
    (h1 : st.raw_data = PyValue.dict fs) (h2 : fs.isEmpty = false)
    (h3 : pyDictGetD fs "objects" (PyValue.list []) = PyValue.list entries)
    (h4 : entries.all isDictV = true) :
    (parse_nodes st).1 = Except.ok (nodeRecs entries) ∧
    (nodeRecs entries).length = (entries.filter keepsEntry).length := by
  refine ⟨?_, length_nodeRecs entries h4⟩
  rw [parse_nodes_eq st fs entries h1 h2 h3 h4]

/-- C3 counterexample: the claim as stated fails on the loadable
document consisting of the empty JSON object (no objects collection, so
the claim demands the empty record list): parse_nodes raises the
not-loaded ValueError instead of returning the empty list. -/
theorem spec_c3_counterexample :
    load_graph emptyObjEnv (initParser "graph.json") = Except.ok stEmptyObj ∧
    (parse_nodes stEmptyObj).1 = Except.error notLoadedError ∧
    (parse_nodes stEmptyObj).1 ≠ Except.ok [] :=
  ⟨rfl, rfl, fun h => nomatch h⟩

/-- Concrete document for the C3 witness: one real node entry and one
graph-metadata entry without the identifier field. -/
def c3entries : List PyValue :=
  [PyValue.dict [("_gvid", PyValue.int 0), ("name", PyValue.str "a")],
   PyValue.dict [("name", PyValue.str "meta-entry")]]

def c3st : TerraformGraphParser :=
  { file_path := "g", raw_data := PyValue.dict [("objects", PyValue.list c3entries)] }

/-- C3 witness: on the concrete document the second entry is skipped and
exactly one record is produced. -/
theorem spec_c3_skip_count_witness :
    (parse_nodes c3st).1 =
      Except.ok [[("id", PyValue.str "0"), ("name", PyValue.str "a"),
                  ("label", PyValue.str "a")]] ∧
    (1 : Nat) = 1 :=
  spec_c3_skip_count c3st [("objects", PyValue.list c3entries)] c3entries
    rfl rfl rfl rfl

/-- C5: for every node entry kept by parse_nodes, when the entry has no
label field the produced record's label equals the entry's name as read
with default "" (record gs), and when the entry has neither label nor
name field the produced label is the empty string (record gs2). -/
theorem spec_c5_label_default (st : TerraformGraphParser) (fs : PyDict)
    (entries : List PyValue) (gs gs2 : PyDict)
    (h1 : st.raw_data = PyValue.dict fs) (h2 : fs.isEmpty = false)
    (h3 : pyDictGetD fs "objects" (PyValue.list []) = PyValue.list entries)
    (h4 : entries.all isDictV = true)
    (hgs : PyValue.dict gs ∈ entries)
    (hkeep : isNoneV (pyDictGet gs "_gvid") = false)
    (hnl : hasKey gs "label" = false)
    (hgs2 : PyValue.dict gs2 ∈ entries)
    (hkeep2 : isNoneV (pyDictGet gs2 "_gvid") = false)
    (hnl2 : hasKey gs2 "label" = false)
    (hnn2 : hasKey gs2 "name" = false) :
    (parse_nodes st).1 = Except.ok (nodeRecs entries) ∧
    pyDictGet (mkNodeDict gs) "label" = pyDictGetD gs "name" (PyValue.str "") ∧
    pyDictGet (mkNodeDict gs2) "label" = PyValue.str "" := by
  refine ⟨?_, ?_, ?_⟩
  · rw [parse_nodes_eq st fs entries h1 h2 h3 h4]
  · rw [pyDictGet, (mkNodeDict_normalized gs).2.2.2.2, Option.getD_some,
        pyDictGetD_of_not_hasKey gs "label" _ hnl]
  · rw [pyDictGet, (mkNodeDict_normalized gs2).2.2.2.2, Option.getD_some,
        pyDictGetD_of_not_hasKey gs2 "label" _ hnl2,
        pyDictGetD_of_not_hasKey gs2 "name" _ hnn2]

/-- Concrete document for the C5 witness: a kept entry with a name and
no label, and a kept entry with neither. -/
def c5gs : PyDict := [("_gvid", PyValue.int 0), ("name", PyValue.str "x")]

def c5gs2 : PyDict := [("_gvid", PyValue.int 1)]

def c5entries : List PyValue := [PyValue.dict c5gs, PyValue.dict c5gs2]

def c5st : TerraformGraphParser :=
  { file_path := "g", raw_data := PyValue.dict [("objects", PyValue.list c5entries)] }

/-- C5 witness: the theorem applied to the concrete document above. -/
theorem spec_c5_label_default_witness :
    (parse_nodes c5st).1 =
      Except.ok [[("id", PyValue.str "0"), ("name", PyValue.str "x"),
                  ("label", PyValue.str "x")],
                 [("id", PyValue.str "1"), ("name", PyValue.str ""),
                  ("label", PyValue.str "")]] ∧
    pyDictGet (mkNodeDict c5gs) "label" = PyValue.str "x" ∧
    pyDictGet (mkNodeDict c5gs2) "label" = PyValue.str "" :=
  spec_c5_label_default c5st [("objects", PyValue.list c5entries)] c5entries c5gs c5gs2
    rfl rfl rfl rfl (by simp [c5entries]) rfl rfl (by simp [c5entries]) rfl rfl rfl

/-- C6: for every edge entry, when the entry has no label field the
produced record's label is the fixed default "DEPENDS_ON". -/
theorem spec_c6_edge_label_default (st : TerraformGraphParser) (fs : PyDict)
    (entries : List PyValue) (gs : PyDict)
    (h1 : st.raw_data = PyValue.dict fs) (h2 : fs.isEmpty = false)
    (h3 : pyDictGetD fs "edges" (PyValue.list []) = PyValue.list entries)
    (h4 : entries.all isDictV = true)
    (hgs : PyValue.dict gs ∈ entries)
    (hnl : hasKey gs "label" = false) :
    (parse_edges st).1 = Except.ok (edgeRecs entries) ∧
    pyDictGet (mkEdgeDict gs) "label" = PyValue.str "DEPENDS_ON" := by
  refine ⟨?_, ?_⟩
  · rw [parse_edges_eq st fs entries h1 h2 h3 h4]
  · rw [pyDictGet, (mkEdgeDict_normalized gs).2.2.2.2.2, Option.getD_some,
        pyDictGetD_of_not_hasKey gs "label" _ hnl]

/-- Concrete document for the C6 witness: one edge entry without a
label field. -/
def c6gs : PyDict := [("tail", PyValue.int 0), ("head", PyValue.int 1)]

def c6st : TerraformGraphParser :=
  { file_path := "g",
    raw_data := PyValue.dict [("edges", PyValue.list [PyValue.dict c6gs])] }

/-- C6 witness: the theorem applied to the concrete document above. -/
theorem spec_c6_edge_label_default_witness :
    (parse_edges c6st).1 =
      Except.ok [[("source", PyValue.str "0"), ("target", PyValue.str "1"),
                  ("label", PyValue.str "DEPENDS_ON")]] ∧
    pyDictGet (mkEdgeDict c6gs) "label" = PyValue.str "DEPENDS_ON" :=
  spec_c6_edge_label_default c6st [("edges", PyValue.list [PyValue.dict c6gs])]
    [PyValue.dict c6gs] c6gs rfl rfl rfl rfl (by simp) rfl

/-- C7 (amended): for every loaded document that is a non-empty JSON
object, get_graph_metadata returns the metadata dict built from the
top-level name/directed/strict fields with their defaults and the
lengths of the internally stored parsed lists; and right after any
successful load of a fresh parser those lists are empty, so the counts
are zero before parse_nodes/parse_edges have run. -/
theorem spec_c7_metadata (st : TerraformGraphParser) (fs : PyDict)
    (env : String → LoadResult) (p : String) (st₁ : TerraformGraphParser)
    (h1 : st.raw_data = PyValue.dict fs) (h2 : fs.isEmpty = false)
    (h3 : load_graph env (initParser p) = Except.ok st₁) :
    get_graph_metadata st =
      Except.ok
        [("name", pyDictGetD fs "name" (PyValue.str "terraform_graph")),
         ("directed", pyDictGetD fs "directed" (PyValue.bool true)),
         ("strict", pyDictGetD fs "strict" (PyValue.bool false)),
         ("node_count", PyValue.int st.nodes.length),
         ("edge_count", PyValue.int st.edges.length)] ∧
    st₁.nodes = [] ∧ st₁.edges = [] := by
  refine ⟨?_, ?_⟩
  · simp [get_graph_metadata, h1, pyTruthy, h2]
  · cases he : env p with
    | ok v =>
        simp [load_graph, initParser, he] at h3
        cases h3
        exact ⟨rfl, rfl⟩
    | notFound => simp [load_graph, initParser, he] at h3
    | badJson => simp [load_graph, initParser, he] at h3

/-- C7 counterexample: the claim as stated fails on the loadable
document consisting of the empty JSON object: instead of returning the
all-default metadata with zero counts, get_graph_metadata raises the
not-loaded ValueError (the truthiness guard misfires on a falsy loaded
document). -/
theorem spec_c7_counterexample :
    get_graph_metadata stEmptyObj = Except.error notLoadedError ∧
    get_graph_metadata stEmptyObj ≠
      Except.ok
        [("name", PyValue.str "terraform_graph"),
         ("directed", PyValue.bool true),
         ("strict", PyValue.bool false),
         ("node_count", PyValue.int 0),
         ("edge_count", PyValue.int 0)] :=
  ⟨rfl, fun h => nomatch h⟩

/-- Concrete data for the C7 witness. -/
def c7fs : PyDict := [("name", PyValue.str "G"), ("directed", PyValue.bool false)]

def c7st : TerraformGraphParser := { file_path := "g", raw_data := PyValue.dict c7fs }

def c7env : String → LoadResult := fun _ => LoadResult.ok (PyValue.dict c7fs)

def c7st1 : TerraformGraphParser := { file_path := "g2", raw_data := PyValue.dict c7fs }

/-- C7 witness: the theorem applied to a concrete loaded document, with
the metadata evaluated. -/
theorem spec_c7_metadata_witness :
    get_graph_metadata c7st =
      Except.ok
        [("name", PyValue.str "G"),
         ("directed", PyValue.bool false),
         ("strict", PyValue.bool false),
         ("node_count", PyValue.int 0),
         ("edge_count", PyValue.int 0)] ∧
    c7st1.nodes = [] ∧ c7st1.edges = [] :=
  spec_c7_metadata c7st c7fs c7env "g2" c7st1 rfl rfl rfl

/-- C10 (amended): parse_edges never skips an edge entry — it produces
exactly one record per entry; an entry lacking the tail field whose
extra attributes do not themselves include a source key yields source =
"None" (the 4-character str() image of Python None), and likewise for
head/target.  (The proviso is forced: source/target are not in the
exclusion set, so an extra source or target field in the entry is copied
over the computed value by the attribute loop.) -/
theorem spec_c10_no_skip (st : TerraformGraphParser) (fs : PyDict)
    (entries : List PyValue) (gs gt : PyDict)
    (h1 : st.raw_data = PyValue.dict fs) (h2 : fs.isEmpty = false)
    (h3 : pyDictGetD fs "edges" (PyValue.list []) = PyValue.list entries)
    (h4 : entries.all isDictV = true)
    (hgs : PyValue.dict gs ∈ entries)
    (hgsTail : hasKey gs "tail" = false)
    (hgsSrc : hasKey gs "source" = false)
    (hgt : PyValue.dict gt ∈ entries)
    (hgtHead : hasKey gt "head" = false)
    (hgtTgt : hasKey gt "target" = false) :
    (parse_edges st).1 = Except.ok (edgeRecs entries) ∧
    (edgeRecs entries).length = entries.length ∧
    pyDictGet (mkEdgeDict gs) "source" = PyValue.str "None" ∧
    pyDictGet (mkEdgeDict gt) "target" = PyValue.str "None" ∧
    "None".length = 4 := by
  refine ⟨?_, length_edgeRecs entries h4, ?_, ?_, rfl⟩
  · rw [parse_edges_eq st fs entries h1 h2 h3 h4]
  · have htail : pyDictGet gs "tail" = PyValue.none := by
      rw [pyDictGet, pyLookup_eq_none_of_not_hasKey gs "tail" hgsTail]; rfl
    have hsrc : pyLookup (mkEdgeDict gs) "source" =
        Option.some (PyValue.str (pyToStr (pyDictGet gs "tail"))) := by
      rw [mkEdgeDict, addExtras_lookup_of_not_hasKey _ _ _ _ hgsSrc]; rfl
    rw [pyDictGet, hsrc, Option.getD_some, htail]
    rfl
  · have hhead : pyDictGet gt "head" = PyValue.none := by
      rw [pyDictGet, pyLookup_eq_none_of_not_hasKey gt "head" hgtHead]; rfl
    have htgt : pyLookup (mkEdgeDict gt) "target" =
        Option.some (PyValue.str (pyToStr (pyDictGet gt "head"))) := by
      rw [mkEdgeDict, addExtras_lookup_of_not_hasKey _ _ _ _ hgtTgt]; rfl
    rw [pyDictGet, htgt, Option.getD_some, hhead]
    rfl

/-- Concrete edge entry carrying its own source field (and no tail)
for the C10 counterexample. -/
def c10gs : PyDict := [("source", PyValue.str "x")]

def c10st : TerraformGraphParser :=
  { file_path := "g",
    raw_data := PyValue.dict [("edges", PyValue.list [PyValue.dict c10gs])] }

/-- C10 counterexample: on the edge entry with no tail field but an
extra source field, the record is still produced (no skip) but its
source is the copied extra value "x", not the string "None" the claim
requires for every entry lacking tail. -/
theorem spec_c10_counterexample :
    (parse_edges c10st).1 =
      Except.ok [[("source", PyValue.str "x"), ("target", PyValue.str "None"),
                  ("label", PyValue.str "DEPENDS_ON")]] ∧
    pyDictGet (mkEdgeDict c10gs) "source" ≠ PyValue.str "None" :=
  ⟨rfl, fun h => absurd (PyValue.str.inj h) (by decide)⟩

/-- Concrete document for the C10 witness: one edge entry lacking both
tail and head (and with no source/target extras). -/
def c10gw : PyDict := [("weight", PyValue.int 3)]

def c10stw : TerraformGraphParser :=
  { file_path := "g",
    raw_data := PyValue.dict [("edges", PyValue.list [PyValue.dict c10gw])] }

/-- C10 witness: the amended theorem applied to the concrete entry with
neither tail nor head: the record is produced with source and target
both "None". -/
theorem spec_c10_no_skip_witness :
    (parse_edges c10stw).1 =
      Except.ok [[("source", PyValue.str "None"), ("target", PyValue.str "None"),
                  ("label", PyValue.str "DEPENDS_ON"), ("weight", PyValue.int 3)]] ∧
    (1 : Nat) = 1 ∧
    pyDictGet (mkEdgeDict c10gw) "source" = PyValue.str "None" ∧
    pyDictGet (mkEdgeDict c10gw) "target" = PyValue.str "None" ∧
    "None".length = 4 :=
  spec_c10_no_skip c10stw [("edges", PyValue.list [PyValue.dict c10gw])]
    [PyValue.dict c10gw] c10gw c10gw rfl rfl rfl rfl
    (by simp) rfl rfl (by simp) rfl rfl

/-- The concrete end-to-end input document of the C4 scenario. -/
def c4doc : PyValue :=
  PyValue.dict
    [("objects", PyValue.list
        [PyValue.dict [("_gvid", PyValue.int 0), ("name", PyValue.str "aws_instance.web")],
         PyValue.dict [("_gvid", PyValue.int 1),
                       ("name", PyValue.str "aws_security_group.sg")]]),
     ("edges", PyValue.list [PyValue.dict [("tail", PyValue.int 0), ("head", PyValue.int 1)]])]

/-- A filesystem holding the C4 document. -/
def c4env : String → LoadResult := fun _ => LoadResult.ok c4doc

/-- The node records parse produces for the C4 document. -/
def c4nodes : List PyDict :=
  [[("id", PyValue.str "0"), ("name", PyValue.str "aws_instance.web"),
    ("label", PyValue.str "aws_instance.web")],
   [("id", PyValue.str "1"), ("name", PyValue.str "aws_security_group.sg"),
    ("label", PyValue.str "aws_security_group.sg")]]

/-- The edge records parse produces for the C4 document. -/
def c4edges : List PyDict :=
  [[("source", PyValue.str "0"), ("target", PyValue.str "1"),
    ("label", PyValue.str "DEPENDS_ON")]]

/-- The metadata parse produces for the C4 document. -/
def c4meta : PyDict :=
  [("name", PyValue.str "terraform_graph"), ("directed", PyValue.bool true),
   ("strict", PyValue.bool false), ("node_count", PyValue.int 2),
   ("edge_count", PyValue.int 1)]

def c4data : GraphData := ⟨c4nodes, c4edges, c4meta⟩

/-- The store after ingesting the parsed C4 document into an empty
database. -/
def c4store : Store := (ingest_graph {} c4data true).1

/-- C4: evaluation at the claimed scenario.  The parse half of the claim
holds: two node records with ids "0" and "1" and labels equal to their
names, and one edge record source "0", target "1", label "DEPENDS_ON"
(first conjunct; the ingest also reports 2 nodes and 1 edge touched,
second conjunct).  The stats half fails: get_stats runs MATCH over the
two nodes and then an unanchored OPTIONAL MATCH over every DEPENDS_ON
relationship once per node row, so count(r) counts the single
relationship once per node, returning relationships = 2, not the claimed
1 (remaining conjuncts). -/
theorem spec_c4_end_to_end :
    (parse c4env (initParser "graph.json")).1 = Except.ok c4data ∧
    (ingest_graph {} c4data true).2.1 =
      [("nodes", PyValue.int 2), ("edges", PyValue.int 1)] ∧
    get_stats c4store =
      [("nodes", PyValue.int 2), ("relationships", PyValue.int 2)] ∧
    pyDictGet (get_stats c4store) "nodes" = PyValue.int 2 ∧
    pyDictGet (get_stats c4store) "relationships" ≠ PyValue.int 1 :=
  ⟨rfl, rfl, rfl, rfl, fun h => absurd (PyValue.int.inj h) (by decide)⟩

/-- C8: for every store state, graph data and clear flag, ingest_graph
issues exactly the optional clear, then the constraint declaration, then
one node upsert per node record, then one edge upsert per edge record —
so no edge upsert begins before all node upserts have completed
(edgesAfterNodes) — and returns the dict holding the node count reported
by the node upsert step and the edge count reported by the edge upsert
step. -/
theorem spec_c8_ingest_order (store : Store) (g : GraphData) (ce : Bool) :
    (ingest_graph store g ce).2.2 =
      (if ce then [StoreEvent.clearDatabase] else []) ++
        StoreEvent.createConstraints ::
          (g.nodes.map StoreEvent.nodeUpsert ++ g.edges.map StoreEvent.edgeUpsert) ∧
    edgesAfterNodes (ingest_graph store g ce).2.2 = true ∧
    (ingest_graph store g ce).2.1 =
      [("nodes", PyValue.int
          (ingest_nodes (create_constraints
            (if ce then (clear_database store).1 else store)).1 g.nodes).2.1),
       ("edges", PyValue.int
          (ingest_edges (ingest_nodes (create_constraints
            (if ce then (clear_database store).1 else store)).1 g.nodes).1
              g.edges).2.1)] := by
  have htr : (ingest_graph store g ce).2.2 =
      (if ce then [StoreEvent.clearDatabase] else []) ++
        StoreEvent.createConstraints ::
          (g.nodes.map StoreEvent.nodeUpsert ++ g.edges.map StoreEvent.edgeUpsert) := by
    cases ce <;>
      simp [ingest_graph, clear_database, create_constraints,
            ingest_nodes_events, ingest_edges_events]
  refine ⟨htr, ?_, ?_⟩
  · rw [htr]
    exact edgesAfterNodes_shape ce g.nodes g.edges
  · cases ce <;> rfl

/-- A run configuration with no password set, for the C9 witness. -/
def c9env : EnvVars := {}

def c9fileEnv : String → LoadResult := fun _ => LoadResult.notFound

/-- Whether a run event is an interaction with the store (connection,
any upsert or query, or closing). -/
def touchesStore : RunEvent → Bool
  | RunEvent.connectAttempt => true
  | RunEvent.storeOp _ => true
  | RunEvent.statsQuery => true
  | RunEvent.closeConn => true
  | _ => false

/-- C9: for every run configuration whose store password setting is
absent, main reports the configuration error and exits with status 1,
its whole trace being that single report — in particular it performs no
connection attempt or any other store I/O, and the store is untouched. -/
theorem spec_c9_missing_password (envv : EnvVars) (args : CliArgs) (genOk : Bool)
    (fileEnv : String → LoadResult) (connectOk : Bool) (store : Store)
    (h : envv.passwordVar = Option.none) :
    mainRun envv args genOk fileEnv connectOk store =
      (1, [RunEvent.configError], store) ∧
    ((mainRun envv args genOk fileEnv connectOk store).2.1.any touchesStore) = false := by
  have hm : mainRun envv args genOk fileEnv connectOk store =
      (1, [RunEvent.configError], store) := by
    simp [mainRun, h]
  exact ⟨hm, by rw [hm]; rfl⟩

/-- C9 witness: the theorem applied to a fully concrete configuration
with no password. -/
theorem spec_c9_missing_password_witness :
    mainRun c9env {} true c9fileEnv true {} = (1, [RunEvent.configError], {}) ∧
    ((mainRun c9env {} true c9fileEnv true {}).2.1.any touchesStore) = false :=
  spec_c9_missing_password c9env {} true c9fileEnv true {} rfl
